import Mathlib

/-!
Verification of the Playwright TypeScript test-automation harness.

Shallow embedding of the reporting layer (BaseReporter / AllureReporter),
the per-test lifecycle hooks (fixtures.ts), the singleton Logger, the
global teardown, the random test-data generators (CommonUtils) and the
test-data lookup (TestDataUtils).  Stateful TypeScript classes become pure
functions from an explicit state to a pair of new state and emitted log
events; code that can throw returns Except.
-/

/-- Log levels of the winston-backed Logger (src/logger/logger.ts). -/
inductive LogLevel
  | debug
  | info
  | warn
  | error
  deriving DecidableEq, Repr

/-- One line written through the Logger: a level and a message. -/
structure LogEvent where
  level : LogLevel
  message : String
  deriving DecidableEq, Repr

/-- Terminal statuses of a Test Record (base-reporter.ts, TestResult.status). -/
inductive Status
  | PASSED
  | FAILED
  | SKIPPED
  | BROKEN
  deriving DecidableEq, Repr

/-- Status rendered the way the template literal in endTest prints it. -/
def Status.toName : Status → String
  | .PASSED => "PASSED"
  | .FAILED => "FAILED"
  | .SKIPPED => "SKIPPED"
  | .BROKEN => "BROKEN"

/-- The TestResult interface of base-reporter.ts.  Times are the
millisecond clock values the TypeScript code reads from Date.now(). -/
structure TestResult where
  testId : String
  testName : String
  suite : String
  status : Status
  startTime : Int
  endTime : Int
  duration : Int
  error : Option String
  deriving DecidableEq, Repr

/-- The mutable state of a BaseReporter instance: its only field besides
the logger handle is currentTest (base-reporter.ts line 23). -/
structure BaseReporter where
  currentTest : Option TestResult
  deriving DecidableEq, Repr

/-- The JavaScript expression `error || undefined` on a
string-or-undefined value: the empty string is falsy and collapses to
undefined. -/
def jsOrUndefined : Option String → Option String
  | none => none
  | some s => if s = "" then none else some s

/-- BaseReporter.startTest: overwrites currentTest with a fresh record in
status PASSED, startTime = now, endTime = 0, duration = 0, and logs at
info level.  `now` stands for the Date.now() call. -/
def BaseReporter.startTest (r : BaseReporter) (now : Int)
    (testId testName suiteName : String) : BaseReporter × List LogEvent :=
  ((⟨some { testId := testId, testName := testName, suite := suiteName,
            status := Status.PASSED, startTime := now, endTime := 0,
            duration := 0, error := none }⟩ : BaseReporter),
   [⟨LogLevel.info, "Test started: " ++ testName⟩])

/-- BaseReporter.endTest: with no current test it returns at once (no log,
no state change); otherwise it finalizes the record (endTime = now,
duration = now - startTime, the given status, error || undefined), logs at
info level and discards the record.  The third component is the finalized
record that the TypeScript code builds by mutation just before nulling
currentTest. -/
def BaseReporter.endTest (r : BaseReporter) (now : Int) (status : Status)
    (error : Option String) : BaseReporter × List LogEvent × Option TestResult :=
  match r.currentTest with
  | none => (r, [], none)
  | some t =>
      let fin : TestResult :=
        { t with endTime := now, duration := now - t.startTime,
                 status := status, error := jsOrUndefined error }
      ((⟨none⟩ : BaseReporter),
       [⟨LogLevel.info, "Test ended: " ++ fin.testName ++ " - Status: "
           ++ status.toName⟩],
       some fin)

/-- BaseReporter.getCurrentTest. -/
def BaseReporter.getCurrentTest (r : BaseReporter) : Option TestResult :=
  r.currentTest

/-- State visible to an AllureReporter instance: the inherited
BaseReporter state plus the external allure backend, modelled as the
lists of steps and attachments appended so far. -/
structure AllureState where
  reporter : BaseReporter
  steps : List (String × Option String)
  attachments : List (String × String × String)
  deriving DecidableEq, Repr

/-- AllureReporter.addStep (allure-reporter.ts lines 13-20): logs at info
level, records the step on the allure backend, and logs stepDetails at
debug level when given.  It never reads or writes currentTest. -/
def AllureReporter.addStep (s : AllureState) (stepName : String)
    (stepDetails : Option String) : AllureState × List LogEvent :=
  ({ s with steps := s.steps ++ [(stepName, stepDetails)] },
   ⟨LogLevel.info, "ALLURE: Adding step: " ++ stepName⟩ ::
     (match stepDetails with
      | some d => [⟨LogLevel.debug, d⟩]
      | none => []))

/-- AllureReporter.addAttachment (allure-reporter.ts lines 25-28): logs at
debug level and forwards to allure.attachment.  It never reads or writes
currentTest. -/
def AllureReporter.addAttachment (s : AllureState)
    (name content mime : String) : AllureState × List LogEvent :=
  ({ s with attachments := s.attachments ++ [(name, content, mime)] },
   [⟨LogLevel.debug, "ALLURE: Adding attachment: " ++ name ++ " (" ++ mime
       ++ ")"⟩])

/-- Claim C3: in a call sequence with exactly one startTest, the record
created by startTest is finalized exactly once: the first endTest sets
endTime, duration = endTime - startTime, the given status and the
optional error, then discards the record (getCurrentTest returns none),
and every further endTest before the next startTest leaves the reporter
state unchanged. -/
theorem baseReporter_record_finalized_exactly_once (r0 : BaseReporter)
    (t0 t1 : Int) (id nm su : String) (st : Status) (err : Option String) :
    let r1 := (r0.startTest t0 id nm su).1
    let e1 := r1.endTest t1 st err
    e1.2.2 = some { testId := id, testName := nm, suite := su, status := st,
                    startTime := t0, endTime := t1, duration := t1 - t0,
                    error := jsOrUndefined err }
    ∧ e1.1.getCurrentTest = none
    ∧ (∀ r : BaseReporter, r.getCurrentTest = none →
        ∀ t2 st2 err2, r.endTest t2 st2 err2 = (r, [], none)) := by
  refine ⟨rfl, rfl, ?_⟩
  intro r h t2 st2 err2
  unfold BaseReporter.endTest
  rw [show r.currentTest = none from h]

/-- Witness for claim C3 at a concrete call sequence. -/
theorem baseReporter_record_finalized_exactly_once_witness :
    let r1 := ((⟨none⟩ : BaseReporter).startTest 10 "T1" "name" "suite").1
    let e1 := r1.endTest 25 Status.FAILED (some "boom")
    (⟨none⟩ : BaseReporter).endTest 30 Status.PASSED none
      = ((⟨none⟩ : BaseReporter), [], none)
    ∧ e1.2.2 = some { testId := "T1", testName := "name", suite := "suite",
                      status := Status.FAILED, startTime := 10, endTime := 25,
                      duration := 15, error := some "boom" } := by
  refine ⟨(baseReporter_record_finalized_exactly_once
      (⟨none⟩ : BaseReporter) 10 25 "T1" "name" "suite" Status.FAILED
      (some "boom")).2.2 (⟨none⟩ : BaseReporter) rfl 30 Status.PASSED none,
    ?_⟩
  have h := (baseReporter_record_finalized_exactly_once
      (⟨none⟩ : BaseReporter) 10 25 "T1" "name" "suite" Status.FAILED
      (some "boom")).1
  simpa using h

/-- A reporter with no open Test Record. -/
def emptyReporter : BaseReporter := ⟨none⟩

/-- Claim C4 counterexample: endTest called while no Test Record is open
emits no log event at all, in particular no warning, refuting the claim
that such calls emit a logged warning. -/
theorem reporter_no_warning_outside_test :
    (emptyReporter.endTest 5 Status.FAILED none).2.1 = []
    ∧ ¬ (∃ ev ∈ (emptyReporter.endTest 5 Status.FAILED none).2.1,
          ev.level = LogLevel.warn) := by
  exact ⟨rfl, by simp [emptyReporter, BaseReporter.endTest]⟩

/-- Claim C4 (amended): adapter calls made while no Test Record is open do
not throw and neither create nor modify any Test Record, but no warning is
logged: endTest returns silently without logging anything, while addStep
and addAttachment log at info and debug level only and still forward to
the allure backend. -/
theorem reporter_calls_outside_test_are_silent (s : AllureState)
    (h : s.reporter.getCurrentTest = none) (t : Int) (st : Status)
    (err : Option String) (nm d c mime : String) :
    s.reporter.endTest t st err = (s.reporter, [], none)
    ∧ (AllureReporter.addStep s nm (some d)).1.reporter = s.reporter
    ∧ (∀ ev ∈ (AllureReporter.addStep s nm (some d)).2,
        ev.level = LogLevel.info ∨ ev.level = LogLevel.debug)
    ∧ (AllureReporter.addAttachment s nm c mime).1.reporter = s.reporter
    ∧ (∀ ev ∈ (AllureReporter.addAttachment s nm c mime).2,
        ev.level = LogLevel.debug)
    ∧ (AllureReporter.addStep s nm (some d)).1.steps
        = s.steps ++ [(nm, some d)]
    ∧ (AllureReporter.addAttachment s nm c mime).1.attachments
        = s.attachments ++ [(nm, c, mime)] := by
  refine ⟨?_, rfl, ?_, rfl, ?_, rfl, rfl⟩
  · unfold BaseReporter.endTest
    rw [show s.reporter.currentTest = none from h]
  · intro ev hev
    simp [AllureReporter.addStep] at hev
    rcases hev with h1 | h1 <;> simp [h1]
  · intro ev hev
    simp [AllureReporter.addAttachment] at hev
    simp [hev]

/-- Witness for the amended claim C4 at a concrete closed state. -/
theorem reporter_calls_outside_test_are_silent_witness :
    ((⟨⟨none⟩, [], []⟩ : AllureState).reporter.getCurrentTest = none)
    ∧ (⟨⟨none⟩, [], []⟩ : AllureState).reporter.endTest 7 Status.BROKEN none
        = ((⟨⟨none⟩, [], []⟩ : AllureState).reporter, [], none)
    ∧ (AllureReporter.addStep (⟨⟨none⟩, [], []⟩ : AllureState) "s"
        (some "d")).1.reporter = (⟨⟨none⟩, [], []⟩ : AllureState).reporter := by
  refine ⟨rfl, ?_, ?_⟩
  · exact (reporter_calls_outside_test_are_silent
      (⟨⟨none⟩, [], []⟩ : AllureState) rfl 7 Status.BROKEN none "s" "d" "c"
      "m").1
  · exact (reporter_calls_outside_test_are_silent
      (⟨⟨none⟩, [], []⟩ : AllureState) rfl 7 Status.BROKEN none "s" "d" "c"
      "m").2.1

/-- Playwright test statuses as observed by test.info().status in the
afterEach hook of fixtures.ts. -/
inductive FixtureStatus
  | passed
  | failed
  | timedOut
  | skipped
  | interrupted
  deriving DecidableEq, Repr

/-- Status rendered the way the template literal in the else branch of
the afterEach hook prints it. -/
def FixtureStatus.toName : FixtureStatus → String
  | .passed => "passed"
  | .failed => "failed"
  | .timedOut => "timedOut"
  | .skipped => "skipped"
  | .interrupted => "interrupted"

/-- An observable effect of the afterEach hook in fixtures.ts: a log
line, an allure step, a driver screenshot, an allure attachment, or the
storage-isolation driver calls. -/
inductive FixtureEvent
  | log (level : LogLevel) (message : String)
  | reportStep (name : String)
  | screenshot (path : String) (fullPage : Bool)
  | attach (name : String) (content : String) (mime : String)
  | clearCookies
  | clearStorage
  deriving DecidableEq, Repr

/-- Which awaited driver operations of the afterEach hook throw in a
given run: page.screenshot, context().clearCookies and page.evaluate.
none means the operation succeeds. -/
structure PageBehavior where
  screenshotError : Option String
  clearCookiesError : Option String
  evaluateError : Option String
  deriving DecidableEq, Repr

/-- The test.afterEach hook of src/test-setup/fixtures.ts (lines 56-89).
The hook body has no try/catch, so any throwing driver operation makes
the whole hook fail: the result is Except.error with that error and the
remaining teardown steps never run.  On success the ordered list of
effects is returned.  `now` stands for the Date.now() call naming the
failure screenshot. -/
def fixturesAfterEach (testName : String) (status : FixtureStatus)
    (now : Int) (page : PageBehavior) : Except String (List FixtureEvent) :=
  let branch : Except String (List FixtureEvent) :=
    match status with
    | FixtureStatus.passed =>
        Except.ok [FixtureEvent.log LogLevel.info
                     ("[PASS] Test passed: " ++ testName),
                   FixtureEvent.reportStep ("Test passed: " ++ testName)]
    | FixtureStatus.failed =>
        match page.screenshotError with
        | some e => Except.error e
        | none =>
            let shotPath := "reports/screenshots/failure_" ++ toString now
                ++ ".png"
            Except.ok [FixtureEvent.log LogLevel.error
                         ("[FAIL] Test failed: " ++ testName),
                       FixtureEvent.reportStep ("Test failed: " ++ testName),
                       FixtureEvent.screenshot shotPath true,
                       FixtureEvent.attach
                         ("Screenshot - failure_" ++ toString now)
                         shotPath "image/png"]
    | other =>
        Except.ok [FixtureEvent.log LogLevel.info
                     ("Test " ++ other.toName ++ ": " ++ testName)]
  match branch with
  | Except.error e => Except.error e
  | Except.ok evts =>
      match page.clearCookiesError with
      | some e => Except.error e
      | none =>
          match page.evaluateError with
          | some e => Except.error e
          | none =>
              Except.ok (evts ++ [FixtureEvent.clearCookies,
                                  FixtureEvent.clearStorage])

/-- True of attachments that could serialize a thrown error: the only
error serialization in the repository is addErrorDetails, which attaches
JSON named Error Details (allure-reporter.ts lines 189-198), or the plain
text Error Stack Trace attachment of TestBase.handleTestFailure. -/
def isErrorAttachment : FixtureEvent → Bool
  | FixtureEvent.attach name _ mime =>
      mime == "application/json" || name == "Error Details"
        || name == "Error Stack Trace"
  | _ => false

/-- True of the allure attachment recording the failure screenshot. -/
def isScreenshotAttachment : FixtureEvent → Bool
  | FixtureEvent.attach _ _ mime => mime == "image/png"
  | _ => false

/-- Claim C1 counterexample: a failed test whose teardown succeeds ends
the afterEach hook of fixtures.ts with a screenshot attachment but with
no structured error attachment at all, refuting the claim that both are
present before teardown completes. -/
theorem fixtures_failed_has_no_error_attachment :
    fixturesAfterEach "t" FixtureStatus.failed 0 ⟨none, none, none⟩
      = Except.ok [FixtureEvent.log LogLevel.error "[FAIL] Test failed: t",
          FixtureEvent.reportStep "Test failed: t",
          FixtureEvent.screenshot "reports/screenshots/failure_0.png" true,
          FixtureEvent.attach "Screenshot - failure_0"
            "reports/screenshots/failure_0.png" "image/png",
          FixtureEvent.clearCookies, FixtureEvent.clearStorage]
    ∧ ([FixtureEvent.log LogLevel.error "[FAIL] Test failed: t",
          FixtureEvent.reportStep "Test failed: t",
          FixtureEvent.screenshot "reports/screenshots/failure_0.png" true,
          FixtureEvent.attach "Screenshot - failure_0"
            "reports/screenshots/failure_0.png" "image/png",
          FixtureEvent.clearCookies, FixtureEvent.clearStorage].all
        (fun ev => !isErrorAttachment ev)) = true := by
  exact ⟨rfl, by decide⟩

/-- Claim C1 (amended): for every failed test whose teardown driver calls
succeed, the afterEach hook of fixtures.ts captures one full-page
screenshot and adds it as an image/png attachment before the hook
completes; no structured error attachment is added there (error
serialization lives only in TestBase.handleTestFailure, which this hook
does not call). -/
theorem fixtures_failed_attaches_screenshot_only (testName : String)
    (now : Int) :
    fixturesAfterEach testName FixtureStatus.failed now ⟨none, none, none⟩
      = Except.ok [FixtureEvent.log LogLevel.error
            ("[FAIL] Test failed: " ++ testName),
          FixtureEvent.reportStep ("Test failed: " ++ testName),
          FixtureEvent.screenshot
            ("reports/screenshots/failure_" ++ toString now ++ ".png") true,
          FixtureEvent.attach ("Screenshot - failure_" ++ toString now)
            ("reports/screenshots/failure_" ++ toString now ++ ".png")
            "image/png",
          FixtureEvent.clearCookies, FixtureEvent.clearStorage] := rfl

/-- Claim C2 counterexample: when the failure-screenshot capture throws
(for example because the page already closed), the afterEach hook of
fixtures.ts propagates the exception instead of catching it. -/
theorem fixtures_teardown_error_propagates :
    fixturesAfterEach "t" FixtureStatus.failed 0
        ⟨some "page closed", none, none⟩
      = Except.error "page closed" := rfl

/-- Claim C2 (amended): the afterEach hook of fixtures.ts contains no
try/catch: whichever teardown step throws first (failure screenshot,
cookie clearing, or in-page storage clearing), its exception propagates
out of the hook and the remaining teardown steps are skipped. -/
theorem fixtures_teardown_has_no_catch (testName : String) (now : Int)
    (e : String) (c s : Option String) :
    fixturesAfterEach testName FixtureStatus.failed now ⟨some e, c, s⟩
        = Except.error e
    ∧ fixturesAfterEach testName FixtureStatus.passed now ⟨none, some e, s⟩
        = Except.error e
    ∧ fixturesAfterEach testName FixtureStatus.passed now ⟨none, none, some e⟩
        = Except.error e := ⟨rfl, rfl, rfl⟩

/-- A Logger object identity.  Each `new Logger()` call yields a distinct
object; the id token distinguishes object identities. -/
structure LoggerObj where
  id : Nat
  deriving DecidableEq, Repr

/-- Logger.getInstance (logger.ts lines 73-78) acting on the static field
Logger.instance (modelled as the Option-valued stored state): when the
field is unset, the freshly constructed object is stored and returned;
otherwise the stored object is returned and the field is untouched.
`fresh` stands for the object `new Logger()` would create on this call. -/
def Logger.getInstance (stored : Option LoggerObj) (fresh : LoggerObj) :
    LoggerObj × Option LoggerObj :=
  match stored with
  | none => (fresh, some fresh)
  | some l => (l, some l)

/-- A sequence of getInstance calls threaded through the static field:
the n-th call would construct the n-th element of `freshes` if the field
were unset.  Returns the list of returned instances and the final field
value. -/
def Logger.getInstanceRuns :
    Option LoggerObj → List LoggerObj → List LoggerObj × Option LoggerObj
  | st, [] => ([], st)
  | st, f :: fs =>
      let r := Logger.getInstance st f
      let rest := Logger.getInstanceRuns r.2 fs
      (r.1 :: rest.1, rest.2)

/-- Once the static field holds an instance, every further getInstance
call returns exactly that instance and never replaces it. -/
theorem Logger.getInstanceRuns_stored (l : LoggerObj) :
    ∀ fs : List LoggerObj,
      Logger.getInstanceRuns (some l) fs = (List.replicate fs.length l, some l) := by
  intro fs
  induction fs with
  | nil => rfl
  | cons f fs ih =>
      simp [Logger.getInstanceRuns, Logger.getInstance, ih,
        List.replicate_succ]

/-- Claim C6: Logger.getInstance is idempotent across the process: the
first call starting from an unset static field lazily stores the freshly
created instance, and every subsequent call returns that same instance;
the stored instance is never replaced or recreated. -/
theorem logger_getInstance_idempotent (f : LoggerObj) (fs : List LoggerObj) :
    Logger.getInstanceRuns none (f :: fs)
      = (f :: List.replicate fs.length f, some f)
    ∧ (∀ l fresh, Logger.getInstance (some l) fresh = (l, some l)) := by
  constructor
  · simp [Logger.getInstanceRuns, Logger.getInstance,
      Logger.getInstanceRuns_stored]
  · intro l fresh
    rfl

/-- File-system or child-process operations performed by the global
teardown (test-setup/global-teardown.ts). -/
inductive TdAction
  | execAllureGenerate
  | rmDir (d : String)
  | renameReport
  | statFile (f : String)
  | unlinkFile (f : String)
  deriving DecidableEq, Repr

/-- A log file entry in the logs directory: name and mtime in
milliseconds. -/
structure LogFileEnt where
  name : String
  mtime : Int
  deriving DecidableEq, Repr

/-- The environment the global teardown runs against: which operations
throw (none = success), which directories exist, the log directory
contents, and the current clock. -/
structure TeardownEnv where
  execGenError : Option String
  dirExists : String → Bool
  rmError : String → Option String
  renameError : Option String
  logFiles : List LogFileEnt
  statError : String → Option String
  unlinkError : String → Option String
  now : Int

/-- 7 days in milliseconds, the log retention window. -/
def sevenDaysMs : Int := 7 * 24 * 60 * 60 * 1000

/-- The try-block of generateReports (global-teardown.ts lines 37-57):
run the external allure command, then move allure-report into
reports/allure-report when present.  Returns the actions performed, the
log lines emitted inside the block, and the error that aborted the block,
if any. -/
def generateReportsTry (env : TeardownEnv) :
    List TdAction × List LogEvent × Option String :=
  match env.execGenError with
  | some e => ([TdAction.execAllureGenerate], [], some e)
  | none =>
      let done := [TdAction.execAllureGenerate]
      let lg := [⟨LogLevel.info, "Allure report generated successfully"⟩]
      if env.dirExists "allure-report" then
        let step1 :=
          if env.dirExists "reports/allure-report" then
            match env.rmError "reports/allure-report" with
            | some e => (done ++ [TdAction.rmDir "reports/allure-report"],
                         lg, some e)
            | none => (done ++ [TdAction.rmDir "reports/allure-report"],
                       lg, none)
          else (done, lg, none)
        match step1.2.2 with
        | some e => (step1.1, step1.2.1, some e)
        | none =>
            match env.renameError with
            | some e => (step1.1 ++ [TdAction.renameReport], step1.2.1, some e)
            | none =>
                (step1.1 ++ [TdAction.renameReport],
                 step1.2.1 ++ [⟨LogLevel.info,
                   "Allure report moved to reports directory"⟩], none)
      else (done, lg, none)

/-- generateReports (global-teardown.ts lines 34-61): the try-block above
wrapped in its catch, which logs a warning and swallows the error, so the
function itself never throws. -/
def generateReports (env : TeardownEnv) : List TdAction × List LogEvent :=
  let r := generateReportsTry env
  let lg := ⟨LogLevel.info, "Generating test reports..."⟩ :: r.2.1
  match r.2.2 with
  | some e => (r.1, lg ++ [⟨LogLevel.warn,
                 "Failed to generate reports: " ++ e⟩])
  | none => (r.1, lg)

/-- The loop of cleanupTempFiles over the three transient directories:
each existing directory is removed; a throwing rmSync aborts the rest of
the try-block. -/
def cleanupDirs (env : TeardownEnv) :
    List String → List TdAction × List LogEvent × Option String
  | [] => ([], [], none)
  | d :: ds =>
      if env.dirExists d then
        match env.rmError d with
        | some e => ([TdAction.rmDir d], [], some e)
        | none =>
            let rest := cleanupDirs env ds
            (TdAction.rmDir d :: rest.1,
             ⟨LogLevel.info, "Cleaned up directory: " ++ d⟩ :: rest.2.1,
             rest.2.2)
      else cleanupDirs env ds

/-- The loop of cleanupTempFiles over the logs directory: every file is
stat-ed and deleted when older than the retention window; a throwing
stat or unlink aborts the rest of the try-block. -/
def cleanupLogs (env : TeardownEnv) :
    List LogFileEnt → List TdAction × List LogEvent × Option String
  | [] => ([], [], none)
  | f :: fs =>
      match env.statError f.name with
      | some e => ([TdAction.statFile f.name], [], some e)
      | none =>
          if f.mtime < env.now - sevenDaysMs then
            match env.unlinkError f.name with
            | some e => ([TdAction.statFile f.name,
                          TdAction.unlinkFile f.name], [], some e)
            | none =>
                let rest := cleanupLogs env fs
                (TdAction.statFile f.name :: TdAction.unlinkFile f.name
                   :: rest.1,
                 ⟨LogLevel.info, "Deleted old log file: " ++ f.name⟩
                   :: rest.2.1,
                 rest.2.2)
          else
            let rest := cleanupLogs env fs
            (TdAction.statFile f.name :: rest.1, rest.2.1, rest.2.2)

/-- The try-block of cleanupTempFiles (global-teardown.ts lines 66-101):
remove the transient result directories, then prune old log files. -/
def cleanupTempFilesTry (env : TeardownEnv) :
    List TdAction × List LogEvent × Option String :=
  let r1 := cleanupDirs env ["test-results", "playwright-report",
                             "allure-results"]
  match r1.2.2 with
  | some e => (r1.1, r1.2.1, some e)
  | none =>
      if env.dirExists "logs" then
        let r2 := cleanupLogs env env.logFiles
        match r2.2.2 with
        | some e => (r1.1 ++ r2.1, r1.2.1 ++ r2.2.1, some e)
        | none => (r1.1 ++ r2.1,
                   r1.2.1 ++ r2.2.1 ++ [⟨LogLevel.info,
                     "Temporary files cleanup completed"⟩], none)
      else (r1.1, r1.2.1 ++ [⟨LogLevel.info,
              "Temporary files cleanup completed"⟩], none)

/-- cleanupTempFiles (global-teardown.ts lines 63-105): the try-block
wrapped in its catch, which logs a warning and swallows the error, so the
function itself never throws. -/
def cleanupTempFiles (env : TeardownEnv) : List TdAction × List LogEvent :=
  let r := cleanupTempFilesTry env
  let lg := ⟨LogLevel.info, "Cleaning up temporary files..."⟩ :: r.2.1
  match r.2.2 with
  | some e => (r.1, lg ++ [⟨LogLevel.warn,
                 "Failed to cleanup temporary files: " ++ e⟩])
  | none => (r.1, lg)

/-- globalTeardown (global-teardown.ts lines 7-31): generateReports then
cleanupTempFiles inside an outer try whose catch logs and deliberately
does not rethrow.  Both callees swallow their own errors, so the body
never raises and the success path always runs; the Option String result
is the exception propagated to the caller, always none. -/
def globalTeardown (env : TeardownEnv) :
    List TdAction × List LogEvent × Option String :=
  let g := generateReports env
  let c := cleanupTempFiles env
  (g.1 ++ c.1,
   ⟨LogLevel.info, "Starting global teardown..."⟩ :: g.2 ++ c.2
     ++ [⟨LogLevel.info, "Global teardown completed successfully"⟩],
   none)

/-- Claim C7: globalTeardown never propagates an exception: whatever the
environment does (including a throwing report generation or move), the
hook returns without error, the temp-file cleanup step still runs in
full after report generation, and a failed report generation is logged
as a warning and swallowed. -/
theorem globalTeardown_never_throws (env : TeardownEnv) :
    (globalTeardown env).2.2 = none
    ∧ (globalTeardown env).1
        = (generateReports env).1 ++ (cleanupTempFiles env).1
    ∧ (∀ e, env.execGenError = some e →
        (⟨LogLevel.warn, "Failed to generate reports: " ++ e⟩ : LogEvent)
          ∈ (globalTeardown env).2.1) := by
  refine ⟨rfl, rfl, ?_⟩
  intro e he
  have hg : (generateReports env).2
      = [⟨LogLevel.info, "Generating test reports..."⟩,
         ⟨LogLevel.warn, "Failed to generate reports: " ++ e⟩] := by
    simp [generateReports, generateReportsTry, he]
  simp [globalTeardown, hg]

/-- A concrete environment whose allure generation throws. -/
def teardownEnvBoom : TeardownEnv :=
  { execGenError := some "boom", dirExists := fun _ => false,
    rmError := fun _ => none, renameError := none, logFiles := [],
    statError := fun _ => none, unlinkError := fun _ => none, now := 0 }

/-- Witness for claim C7 at a concrete environment whose report
generation throws. -/
theorem globalTeardown_never_throws_witness :
    teardownEnvBoom.execGenError = some "boom"
    ∧ (globalTeardown teardownEnvBoom).2.2 = none
    ∧ (⟨LogLevel.warn, "Failed to generate reports: " ++ "boom"⟩ : LogEvent)
        ∈ (globalTeardown teardownEnvBoom).2.1 :=
  ⟨rfl, (globalTeardown_never_throws teardownEnvBoom).1,
   (globalTeardown_never_throws teardownEnvBoom).2.2 "boom" rfl⟩

/-- The numeric value CommonUtils.generateRandomNumber (common-utils.ts
lines 249-269) accumulates: `result` starts as the NUMBER
Math.floor(Math.random() * 9) + 1, and the loop `result +=
Math.floor(Math.random() * 10)` is numeric addition, so the value is the
arithmetic sum of the drawn digits, not their concatenation.  `rand i` is
the value of the i-th Math.random() call. -/
def generateRandomNumberVal (count : Int) (rand : Nat → ℚ) : Int :=
  ((List.range (count.toNat - 1)).map (fun i => ⌊rand (i + 1) * 10⌋)).foldl
    (· + ·) (⌊rand 0 * 9⌋ + 1)

/-- CommonUtils.generateRandomNumber: empty string for count <= 0, else
result.toString() of the accumulated numeric value. -/
def generateRandomNumber (count : Int) (rand : Nat → ℚ) : String :=
  if count ≤ 0 then "" else toString (generateRandomNumberVal count rand)

/-- CommonUtils.generateRandomNumeric (common-utils.ts lines 320-336):
`result` starts as the STRING '' and the loop `result +=
Math.floor(Math.random() * 10)` is string concatenation, one digit
character per iteration. -/
def generateRandomNumeric (length : Int) (rand : Nat → ℚ) : String :=
  if length ≤ 0 then ""
  else (List.range length.toNat).foldl
    (fun acc i => acc ++ toString ⌊rand i * 10⌋) ""

/-- A nonnegative integer prints as the decimal numeral of its Nat
value. -/
theorem intToString_of_nonneg (v : Int) (h : 0 ≤ v) :
    toString v = Nat.repr v.toNat := by
  obtain ⟨n, rfl⟩ := Int.eq_ofNat_of_zero_le h
  simp only [Int.toNat_ofNat]
  rfl

/-- For c >= 3 the bound 9c on a digit sum stays below 10^(c-1), so its
numeral is shorter than c characters. -/
theorem nine_mul_lt_ten_pow (c : Nat) (hc : 3 ≤ c) : 9 * c < 10 ^ (c - 1) := by
  induction c, hc using Nat.le_induction with
  | base => norm_num
  | succ n hn ih =>
      have h2 : 10 ^ (n - 1) * 10 = 10 ^ n := by
        rw [← pow_succ]
        congr 1
        omega
      have h3 : (1:Nat) ≤ 10 ^ (n - 1) := Nat.one_le_pow _ _ (by norm_num)
      calc 9 * (n + 1) = 9 * n + 9 := by ring
        _ < 10 ^ (n - 1) + 9 := by omega
        _ ≤ 10 ^ (n - 1) * 10 := by omega
        _ = 10 ^ n := h2

/-- A single decimal digit prints as one character. -/
theorem repr_len_one (n : Nat) (h : n < 10) : (Nat.repr n).length = 1 := by
  interval_cases n <;> rfl

/-- Math.floor(r * k) for r in [0, 1) lies in [0, k). -/
theorem floor_unit_mul (q : ℚ) (k : Int) (hk : 0 < k) (h0 : 0 ≤ q)
    (h1 : q < 1) : 0 ≤ ⌊q * (k : ℚ)⌋ ∧ ⌊q * (k : ℚ)⌋ < k := by
  constructor
  · exact Int.floor_nonneg.mpr (by positivity)
  · apply Int.floor_lt.mpr
    have hkq : (0:ℚ) < (k:ℚ) := by exact_mod_cast hk
    nlinarith

/-- Folding addition over a list from an initial value adds the list
sum. -/
theorem foldl_add_eq_sum (l : List Int) (init : Int) :
    l.foldl (· + ·) init = init + l.sum := by
  induction l generalizing init with
  | nil => simp
  | cons x xs ih => simp [ih, add_assoc]

/-- Each appended digit of generateRandomNumeric is one character. -/
theorem digit_string_len (rand : Nat → ℚ) (h : ∀ i, 0 ≤ rand i ∧ rand i < 1)
    (i : Nat) : (toString ⌊rand i * 10⌋).length = 1 := by
  have hb := floor_unit_mul (rand i) 10 (by norm_num) (h i).1 (h i).2
  have h10 : ((10 : Int) : ℚ) = (10 : ℚ) := by norm_num
  rw [h10] at hb
  rw [intToString_of_nonneg _ hb.1]
  apply repr_len_one
  omega

/-- The digit-concatenation loop grows the string by exactly one
character per iteration. -/
theorem foldl_digits_length (rand : Nat → ℚ)
    (h : ∀ i, 0 ≤ rand i ∧ rand i < 1) (l : List Nat) :
    ∀ acc : String,
      (l.foldl (fun acc i => acc ++ toString ⌊rand i * 10⌋) acc).length
        = acc.length + l.length := by
  induction l with
  | nil => intro acc; simp
  | cons x xs ih =>
      intro acc
      rw [List.foldl_cons, ih, String.length_append,
        digit_string_len rand h x, List.length_cons]
      omega

/-- Claim C8: for count >= 1, generateRandomNumber returns the decimal
string of the arithmetic sum of its digit draws (first draw in 1..9, the
rest in 0..9), hence a value between 1 and 9 * count, and for count >= 3
the returned string has fewer than count characters; generateRandomNumeric
instead concatenates and always returns exactly `length` digit characters
for length >= 1. -/
theorem commonUtils_random_generators (count length : Int) (rand : Nat → ℚ)
    (h : ∀ i, 0 ≤ rand i ∧ rand i < 1) :
    (1 ≤ count →
      generateRandomNumber count rand
          = toString (generateRandomNumberVal count rand)
      ∧ 1 ≤ generateRandomNumberVal count rand
      ∧ generateRandomNumberVal count rand ≤ 9 * count)
    ∧ (3 ≤ count → ((generateRandomNumber count rand).length : Int) < count)
    ∧ (1 ≤ length → ((generateRandomNumeric length rand).length : Int) = length) := by
  have hbounds : ∀ c : Int, 1 ≤ c →
      1 ≤ generateRandomNumberVal c rand
      ∧ generateRandomNumberVal c rand ≤ 9 * c := by
    intro c hc
    have h9 : ((9 : Int) : ℚ) = (9 : ℚ) := by norm_num
    have hfirst := floor_unit_mul (rand 0) 9 (by norm_num) (h 0).1 (h 0).2
    rw [h9] at hfirst
    set l := (List.range (c.toNat - 1)).map (fun i => (⌊rand (i + 1) * 10⌋ : Int)) with hl
    have hmem : ∀ x ∈ l, 0 ≤ x ∧ x ≤ 9 := by
      intro x hx
      rw [hl] at hx
      simp only [List.mem_map, List.mem_range] at hx
      obtain ⟨i, _, rfl⟩ := hx
      have hb := floor_unit_mul (rand (i + 1)) 10 (by norm_num) (h (i + 1)).1
        (h (i + 1)).2
      have h10 : ((10 : Int) : ℚ) = (10 : ℚ) := by norm_num
      rw [h10] at hb
      omega
    have hsum0 : 0 ≤ l.sum := List.sum_nonneg (fun x hx => (hmem x hx).1)
    have hsum9 : l.sum ≤ l.length • (9 : Int) :=
      List.sum_le_card_nsmul l 9 (fun x hx => (hmem x hx).2)
    rw [nsmul_eq_mul] at hsum9
    have hlen : l.length = c.toNat - 1 := by
      rw [hl]; simp
    rw [hlen] at hsum9
    have hval : generateRandomNumberVal c rand = (⌊rand 0 * 9⌋ + 1) + l.sum := by
      rw [generateRandomNumberVal, ← hl, foldl_add_eq_sum]
    rw [hval]
    omega
  refine ⟨?_, ?_, ?_⟩
  · intro hc
    refine ⟨?_, hbounds count hc⟩
    rw [generateRandomNumber, if_neg (by omega)]
  · intro hc
    have hb := hbounds count (by omega)
    have hv1 : 1 ≤ generateRandomNumberVal count rand := hb.1
    have hv9 : generateRandomNumberVal count rand ≤ 9 * count := hb.2
    rw [generateRandomNumber, if_neg (by omega),
      intToString_of_nonneg _ (by omega)]
    have hcnat : 3 ≤ count.toNat := by omega
    have hlt : (generateRandomNumberVal count rand).toNat < 10 ^ (count.toNat - 1) := by
      have := nine_mul_lt_ten_pow count.toNat hcnat
      omega
    have := Nat.repr_length (generateRandomNumberVal count rand).toNat
      (count.toNat - 1) (by omega) hlt
    omega
  · intro hlen
    rw [generateRandomNumeric, if_neg (by omega),
      foldl_digits_length rand h, List.length_range]
    have hemp : "".length = 0 := rfl
    rw [hemp]
    omega

/-- A concrete random source: every Math.random() call returns one
half. -/
def randHalf : Nat → ℚ := fun _ => 1 / 2

/-- Witness for claim C8 with count = length = 3 and a constant random
source. -/
theorem commonUtils_random_generators_witness :
    (∀ i, 0 ≤ randHalf i ∧ randHalf i < 1)
    ∧ ((generateRandomNumber 3 randHalf).length : Int) < 3
    ∧ ((generateRandomNumeric 3 randHalf).length : Int) = 3 := by
  have hr : ∀ i, 0 ≤ randHalf i ∧ randHalf i < 1 := by
    intro i
    constructor <;> norm_num [randHalf]
  exact ⟨hr,
    (commonUtils_random_generators 3 3 randHalf hr).2.1 (by norm_num),
    (commonUtils_random_generators 3 3 randHalf hr).2.2 (by norm_num)⟩

/-- JSON values as stored in test-data.json. -/
inductive JSValue
  | jsNull
  | jsBool (b : Bool)
  | jsNum (n : Int)
  | jsStr (s : String)
  | jsArr (xs : List JSValue)
  | jsObj (fields : List (String × JSValue))

/-- JavaScript truthiness of a JSON value: null, false, 0 and the empty
string are falsy; arrays and objects are always truthy. -/
def truthy : JSValue → Bool
  | JSValue.jsNull => false
  | JSValue.jsBool b => b
  | JSValue.jsNum n => n != 0
  | JSValue.jsStr s => s != ""
  | JSValue.jsArr _ => true
  | JSValue.jsObj _ => true

/-- The property access testDataJson[key]: the bound value when the key
is present, none when absent. -/
def lookupField : List (String × JSValue) → String → Option JSValue
  | [], _ => none
  | (k, v) :: rest, key => if k = key then some v else lookupField rest key

/-- TestDataUtils.getTestData (test-data-utils.ts lines 15-30): throws
`Test data not found for key: <key>` when testDataJson[key] is falsy
(absent key, null, false, 0 or empty string), else returns the value. -/
def TestDataUtils.getTestData (data : List (String × JSValue))
    (key : String) : Except String JSValue :=
  match lookupField data key with
  | none => Except.error ("Test data not found for key: " ++ key)
  | some v =>
      if truthy v then Except.ok v
      else Except.error ("Test data not found for key: " ++ key)

/-- TestDataUtils.hasTestDataKey (test-data-utils.ts lines 45-52): the
`key in testDataJson` operator, true whenever the key is present, however
falsy its value. -/
def TestDataUtils.hasTestDataKey (data : List (String × JSValue))
    (key : String) : Bool :=
  (lookupField data key).isSome

/-- Claim C9: getTestData throws `Test data not found for key: <key>`
exactly when the key is absent or bound to a falsy value; for a present
but falsy binding hasTestDataKey returns true while getTestData throws,
and for a truthy binding getTestData returns the value unchanged. -/
theorem testDataUtils_getTestData_spec (data : List (String × JSValue))
    (key : String) :
    (TestDataUtils.getTestData data key
        = Except.error ("Test data not found for key: " ++ key)
      ↔ ∀ v, lookupField data key = some v → truthy v = false)
    ∧ (∀ v, lookupField data key = some v → truthy v = false →
        TestDataUtils.hasTestDataKey data key = true
        ∧ TestDataUtils.getTestData data key
            = Except.error ("Test data not found for key: " ++ key))
    ∧ (∀ v, lookupField data key = some v → truthy v = true →
        TestDataUtils.getTestData data key = Except.ok v) := by
  rcases hl : lookupField data key with _ | v
  · refine ⟨?_, ?_, ?_⟩
    · constructor
      · intro _ v hv
        cases hv
      · intro _
        simp [TestDataUtils.getTestData, hl]
    · intro v hv
      cases hv
    · intro v hv
      cases hv
  · by_cases ht : truthy v = true
    · refine ⟨?_, ?_, ?_⟩
      · constructor
        · intro he
          simp [TestDataUtils.getTestData, hl, ht] at he
        · intro hall
          have := hall v rfl
          rw [ht] at this
          cases this
      · intro w hw hf
        cases hw
        rw [ht] at hf
        cases hf
      · intro w hw _
        cases hw
        simp [TestDataUtils.getTestData, hl, ht]
    · have hf : truthy v = false := by
        cases h : truthy v
        · rfl
        · exact absurd h ht
      refine ⟨?_, ?_, ?_⟩
      · constructor
        · intro _ w hw
          cases hw
          exact hf
        · intro _
          simp [TestDataUtils.getTestData, hl, hf]
      · intro w hw _
        refine ⟨?_, ?_⟩
        · simp [TestDataUtils.hasTestDataKey, hl]
        · simp [TestDataUtils.getTestData, hl, hf]
      · intro w hw htw
        cases hw
        rw [htw] at hf
        cases hf

/-- A concrete test-data object with a falsy and a truthy binding. -/
def testData0 : List (String × JSValue) :=
  [("emptyStr", JSValue.jsStr ""), ("user", JSValue.jsStr "alice")]

/-- Witness for claim C9: the key emptyStr is present but falsy, so
hasTestDataKey is true while getTestData throws; the key user is truthy
and is returned unchanged. -/
theorem testDataUtils_getTestData_spec_witness :
    lookupField testData0 "emptyStr" = some (JSValue.jsStr "")
    ∧ truthy (JSValue.jsStr "") = false
    ∧ TestDataUtils.hasTestDataKey testData0 "emptyStr" = true
    ∧ TestDataUtils.getTestData testData0 "emptyStr"
        = Except.error ("Test data not found for key: " ++ "emptyStr")
    ∧ TestDataUtils.getTestData testData0 "user"
        = Except.ok (JSValue.jsStr "alice") := by
  refine ⟨rfl, rfl, ?_, ?_, ?_⟩
  · exact ((testDataUtils_getTestData_spec testData0 "emptyStr").2.1
      (JSValue.jsStr "") rfl rfl).1
  · exact ((testDataUtils_getTestData_spec testData0 "emptyStr").2.1
      (JSValue.jsStr "") rfl rfl).2
  · exact (testDataUtils_getTestData_spec testData0 "user").2.2
      (JSValue.jsStr "alice") rfl rfl

/-- A UI action target: a raw selector string or an already-resolved
locator, the two input forms every ActionUtils method accepts. -/
inductive ActionTarget
  | selector (s : String)
  | handle (id : Nat)
  deriving DecidableEq, Repr

/-- The observable effects of one action-utility call, in execution
order. -/
inductive ActionEvent
  | resolveTarget (t : ActionTarget)
  | waitVisible (t : ActionTarget) (timeout : Nat)
  | perform (name : String) (t : ActionTarget)
  | logAction (message : String)
  | reportStep (name : String)
  deriving DecidableEq, Repr

/-- The failures an action utility can raise: the Error thrown by
getLocatorWithStableAndVisibleOptions when options.page is missing, and
the TimeoutError of the expired visibility wait. -/
inductive ActionError
  | pageRequired
  | timeoutErr
  deriving DecidableEq, Repr

/-- Whether the element reaches the visible state within the given
timeout: visibleAt u says the element is visible u milliseconds after
the wait starts. -/
def waitForVisible (visibleAt : Nat → Bool) (timeout : Nat) : Bool :=
  (List.range (timeout + 1)).any visibleAt

/-- The options bag every ActionUtils method takes: whether options.page
is set, and the optional options.timeout. -/
structure ActionOptions where
  page : Bool
  timeout : Option Nat
  deriving DecidableEq, Repr

/-- The JavaScript expression options.timeout || 30000: an absent or
zero (falsy) timeout falls back to the 30000 default. -/
def effectiveTimeout : Option Nat → Nat
  | none => 30000
  | some v => if v = 0 then 30000 else v

/-- The ternary in the click log template: a selector string prints
itself, a locator argument prints as the word locator. -/
def describeTarget : ActionTarget → String
  | ActionTarget.selector s => s
  | ActionTarget.handle _ => "locator"

/-- ActionUtils.getLocatorWithStableAndVisibleOptions (the ActionUtils
class is the second concatenated document inside
src/src/utils/file-utils.ts, lines 211-612): throws when options.page is
missing, resolves a selector through page.locator (a locator input is
used as is), then waits for the visible state with timeout
options.timeout || 30000.  On success the resolve and wait events are
returned in that order. -/
def getLocatorWithStableAndVisibleOptions (input : ActionTarget)
    (opts : ActionOptions) (visibleAt : Nat → Bool) :
    Except ActionError (List ActionEvent) :=
  if opts.page = false then Except.error ActionError.pageRequired
  else if waitForVisible visibleAt (effectiveTimeout opts.timeout) then
    Except.ok [ActionEvent.resolveTarget input,
               ActionEvent.waitVisible input (effectiveTimeout opts.timeout)]
  else Except.error ActionError.timeoutErr

/-- ActionUtils.click: logs the click target and adds the allure step
Click element, then resolves and waits through the locator helper, then
performs locator.click. -/
def ActionUtils.click (input : ActionTarget) (opts : ActionOptions)
    (visibleAt : Nat → Bool) : Except ActionError (List ActionEvent) :=
  match getLocatorWithStableAndVisibleOptions input opts visibleAt with
  | Except.error e => Except.error e
  | Except.ok evts =>
      Except.ok ([ActionEvent.logAction ("Click: " ++ describeTarget input),
                  ActionEvent.reportStep "Click element"]
        ++ evts ++ [ActionEvent.perform "click" input])

/-- ActionUtils.fill: logs the value and adds the allure step, then
resolves and waits, then performs locator.fill. -/
def ActionUtils.fill (input : ActionTarget) (value : String)
    (opts : ActionOptions) (visibleAt : Nat → Bool) :
    Except ActionError (List ActionEvent) :=
  match getLocatorWithStableAndVisibleOptions input opts visibleAt with
  | Except.error e => Except.error e
  | Except.ok evts =>
      Except.ok ([ActionEvent.logAction ("Fill: " ++ value),
                  ActionEvent.reportStep ("Fill input: " ++ value)]
        ++ evts ++ [ActionEvent.perform "fill" input])

/-- ActionUtils.clear: neither logs nor adds a reporting step; it only
resolves and waits, then performs locator.clear. -/
def ActionUtils.clear (input : ActionTarget) (opts : ActionOptions)
    (visibleAt : Nat → Bool) : Except ActionError (List ActionEvent) :=
  match getLocatorWithStableAndVisibleOptions input opts visibleAt with
  | Except.error e => Except.error e
  | Except.ok evts => Except.ok (evts ++ [ActionEvent.perform "clear" input])

/-- ActionUtils.check: logs Check element (no reporting step), then
resolves and waits, then performs locator.check. -/
def ActionUtils.check (input : ActionTarget) (opts : ActionOptions)
    (visibleAt : Nat → Bool) : Except ActionError (List ActionEvent) :=
  match getLocatorWithStableAndVisibleOptions input opts visibleAt with
  | Except.error e => Except.error e
  | Except.ok evts =>
      Except.ok (ActionEvent.logAction "Check element"
        :: evts ++ [ActionEvent.perform "check" input])

/-- ActionUtils.hover: logs Hover element (no reporting step), then
resolves and waits, then performs locator.hover. -/
def ActionUtils.hover (input : ActionTarget) (opts : ActionOptions)
    (visibleAt : Nat → Bool) : Except ActionError (List ActionEvent) :=
  match getLocatorWithStableAndVisibleOptions input opts visibleAt with
  | Except.error e => Except.error e
  | Except.ok evts =>
      Except.ok (ActionEvent.logAction "Hover element"
        :: evts ++ [ActionEvent.perform "hover" input])

/-- ActionUtils.selectByValue: logs the value and adds the allure step,
then resolves and waits, then performs locator.selectOption. -/
def ActionUtils.selectByValue (input : ActionTarget) (value : String)
    (opts : ActionOptions) (visibleAt : Nat → Bool) :
    Except ActionError (List ActionEvent) :=
  match getLocatorWithStableAndVisibleOptions input opts visibleAt with
  | Except.error e => Except.error e
  | Except.ok evts =>
      Except.ok ([ActionEvent.logAction ("Select: " ++ value),
                  ActionEvent.reportStep ("Select option: " ++ value)]
        ++ evts ++ [ActionEvent.perform "selectOption" input])

/-- The wait-precedes-action trace shape: the trace splits around the
perform event, with the resolve and the visibility wait at the effective
timeout strictly before it. -/
def waitBeforePerform (input : ActionTarget) (opts : ActionOptions)
    (evts : List ActionEvent) (name : String) : Prop :=
  ∃ l1 l2, evts = l1 ++ ActionEvent.perform name input :: l2
    ∧ ActionEvent.resolveTarget input ∈ l1
    ∧ ActionEvent.waitVisible input (effectiveTimeout opts.timeout) ∈ l1

/-- A successful locator resolution always consists of the resolve event
followed by the visibility wait at the effective timeout. -/
theorem getLocator_ok_shape (input : ActionTarget) (opts : ActionOptions)
    (visibleAt : Nat → Bool) (evts : List ActionEvent)
    (h : getLocatorWithStableAndVisibleOptions input opts visibleAt
        = Except.ok evts) :
    evts = [ActionEvent.resolveTarget input,
            ActionEvent.waitVisible input (effectiveTimeout opts.timeout)] := by
  unfold getLocatorWithStableAndVisibleOptions at h
  by_cases hp : opts.page = false
  · rw [if_pos hp] at h
    cases h
  · rw [if_neg hp] at h
    by_cases hw : waitForVisible visibleAt (effectiveTimeout opts.timeout)
    · rw [if_pos hw] at h
      cases h
      rfl
    · rw [if_neg hw] at h
      cases h

/-- Any trace of the form pre ++ [resolve, wait] ++ [perform] satisfies
the wait-precedes-action shape. -/
theorem waitBeforePerform_of_shape (input : ActionTarget)
    (opts : ActionOptions) (pre : List ActionEvent) (name : String) :
    waitBeforePerform input opts
      (pre ++ [ActionEvent.resolveTarget input,
               ActionEvent.waitVisible input (effectiveTimeout opts.timeout)]
        ++ [ActionEvent.perform name input]) name := by
  refine ⟨pre ++ [ActionEvent.resolveTarget input,
    ActionEvent.waitVisible input (effectiveTimeout opts.timeout)], [],
    ?_, ?_, ?_⟩
  · simp
  · simp
  · simp

/-- Claim C5: every UI action utility (click, fill, clear, check, hover,
selectByValue) accepts a selector string or an element handle plus an
options bag, resolves the element, waits for it to reach the visible
state within the caller-given timeout - a caller-given nonzero
options.timeout is exactly the wait bound, the JavaScript fallback
|| 30000 applying only when it is absent or zero - and fails with a
TimeoutError when visibility is not reached in time; the action is
performed only afterwards: in every successful trace the resolve and the
visibility wait strictly precede the perform event. -/
theorem actionUtils_wait_precedes_action (input : ActionTarget)
    (opts : ActionOptions) (visibleAt : Nat → Bool) (value : String) :
    (∀ t, opts.timeout = some t → t ≠ 0 → effectiveTimeout opts.timeout = t)
    ∧ (opts.page = true →
        (∀ u, u ≤ effectiveTimeout opts.timeout → visibleAt u = false) →
        getLocatorWithStableAndVisibleOptions input opts visibleAt
          = Except.error ActionError.timeoutErr)
    ∧ (∀ evts, ActionUtils.click input opts visibleAt = Except.ok evts →
        waitBeforePerform input opts evts "click")
    ∧ (∀ evts, ActionUtils.fill input value opts visibleAt = Except.ok evts →
        waitBeforePerform input opts evts "fill")
    ∧ (∀ evts, ActionUtils.clear input opts visibleAt = Except.ok evts →
        waitBeforePerform input opts evts "clear")
    ∧ (∀ evts, ActionUtils.check input opts visibleAt = Except.ok evts →
        waitBeforePerform input opts evts "check")
    ∧ (∀ evts, ActionUtils.hover input opts visibleAt = Except.ok evts →
        waitBeforePerform input opts evts "hover")
    ∧ (∀ evts,
        ActionUtils.selectByValue input value opts visibleAt = Except.ok evts →
        waitBeforePerform input opts evts "selectOption") := by
  have hshape : ∀ evts0,
      getLocatorWithStableAndVisibleOptions input opts visibleAt
          = Except.ok evts0 →
      evts0 = [ActionEvent.resolveTarget input,
               ActionEvent.waitVisible input (effectiveTimeout opts.timeout)] :=
    fun evts0 h => getLocator_ok_shape input opts visibleAt evts0 h
  refine ⟨?_, ?_, ?_, ?_, ?_, ?_, ?_, ?_⟩
  · intro t ht hne
    rw [ht]
    simp [effectiveTimeout, hne]
  · intro hp hinvis
    have hw : waitForVisible visibleAt (effectiveTimeout opts.timeout)
        = false := by
      rw [waitForVisible, List.any_eq_false]
      intro u hu
      rw [List.mem_range] at hu
      simp [hinvis u (by omega)]
    unfold getLocatorWithStableAndVisibleOptions
    rw [if_neg (by simp [hp]), if_neg (by simp [hw])]
  · intro evts hok
    unfold ActionUtils.click at hok
    cases hg : getLocatorWithStableAndVisibleOptions input opts visibleAt with
    | error e =>
        rw [hg] at hok
        cases hok
    | ok evts0 =>
        rw [hg] at hok
        cases hok
        rw [hshape evts0 hg]
        exact waitBeforePerform_of_shape input opts
          [ActionEvent.logAction ("Click: " ++ describeTarget input),
           ActionEvent.reportStep "Click element"] "click"
  · intro evts hok
    unfold ActionUtils.fill at hok
    cases hg : getLocatorWithStableAndVisibleOptions input opts visibleAt with
    | error e =>
        rw [hg] at hok
        cases hok
    | ok evts0 =>
        rw [hg] at hok
        cases hok
        rw [hshape evts0 hg]
        exact waitBeforePerform_of_shape input opts
          [ActionEvent.logAction ("Fill: " ++ value),
           ActionEvent.reportStep ("Fill input: " ++ value)] "fill"
  · intro evts hok
    unfold ActionUtils.clear at hok
    cases hg : getLocatorWithStableAndVisibleOptions input opts visibleAt with
    | error e =>
        rw [hg] at hok
        cases hok
    | ok evts0 =>
        rw [hg] at hok
        cases hok
        rw [hshape evts0 hg]
        simpa using waitBeforePerform_of_shape input opts [] "clear"
  · intro evts hok
    unfold ActionUtils.check at hok
    cases hg : getLocatorWithStableAndVisibleOptions input opts visibleAt with
    | error e =>
        rw [hg] at hok
        cases hok
    | ok evts0 =>
        rw [hg] at hok
        cases hok
        rw [hshape evts0 hg]
        simpa using waitBeforePerform_of_shape input opts
          [ActionEvent.logAction "Check element"] "check"
  · intro evts hok
    unfold ActionUtils.hover at hok
    cases hg : getLocatorWithStableAndVisibleOptions input opts visibleAt with
    | error e =>
        rw [hg] at hok
        cases hok
    | ok evts0 =>
        rw [hg] at hok
        cases hok
        rw [hshape evts0 hg]
        simpa using waitBeforePerform_of_shape input opts
          [ActionEvent.logAction "Hover element"] "hover"
  · intro evts hok
    unfold ActionUtils.selectByValue at hok
    cases hg : getLocatorWithStableAndVisibleOptions input opts visibleAt with
    | error e =>
        rw [hg] at hok
        cases hok
    | ok evts0 =>
        rw [hg] at hok
        cases hok
        rw [hshape evts0 hg]
        exact waitBeforePerform_of_shape input opts
          [ActionEvent.logAction ("Select: " ++ value),
           ActionEvent.reportStep ("Select option: " ++ value)] "selectOption"

/-- Witness for claim C5 at concrete inputs: a caller-given 2ms timeout
is the effective wait bound; an element that never becomes visible makes
the locator helper fail with a TimeoutError; an immediately visible
element yields a click trace whose resolve and visibility wait precede
the perform event. -/
theorem actionUtils_wait_precedes_action_witness :
    ((⟨true, some 2⟩ : ActionOptions).timeout = some 2
      ∧ effectiveTimeout (⟨true, some 2⟩ : ActionOptions).timeout = 2)
    ∧ getLocatorWithStableAndVisibleOptions (ActionTarget.selector "#q")
        (⟨true, some 2⟩ : ActionOptions) (fun _ => false)
        = Except.error ActionError.timeoutErr
    ∧ (ActionUtils.click (ActionTarget.selector "#q")
        (⟨true, some 2⟩ : ActionOptions) (fun _ => true)
        = Except.ok [ActionEvent.logAction ("Click: " ++ "#q"),
            ActionEvent.reportStep "Click element",
            ActionEvent.resolveTarget (ActionTarget.selector "#q"),
            ActionEvent.waitVisible (ActionTarget.selector "#q") 2,
            ActionEvent.perform "click" (ActionTarget.selector "#q")])
    ∧ waitBeforePerform (ActionTarget.selector "#q")
        (⟨true, some 2⟩ : ActionOptions)
        [ActionEvent.logAction ("Click: " ++ "#q"),
         ActionEvent.reportStep "Click element",
         ActionEvent.resolveTarget (ActionTarget.selector "#q"),
         ActionEvent.waitVisible (ActionTarget.selector "#q") 2,
         ActionEvent.perform "click" (ActionTarget.selector "#q")] "click" := by
  refine ⟨⟨rfl, ?_⟩, ?_, rfl, ?_⟩
  · exact (actionUtils_wait_precedes_action (ActionTarget.selector "#q")
      (⟨true, some 2⟩ : ActionOptions) (fun _ => false) "v").1 2 rfl
      (by decide)
  · exact (actionUtils_wait_precedes_action (ActionTarget.selector "#q")
      (⟨true, some 2⟩ : ActionOptions) (fun _ => false) "v").2.1 rfl
      (fun u _ => rfl)
  · exact (actionUtils_wait_precedes_action (ActionTarget.selector "#q")
      (⟨true, some 2⟩ : ActionOptions) (fun _ => true) "v").2.2.1 _ rfl
